import Mathlib

/-!
Verification development for the PPT-GENERATOR backend.

The definitions below are a shallow embedding of `src/backend/generator.py`
and `src/backend/main.py`.  Presentations, slides, relationship tables and
shape trees are modelled as explicit data; the imperative slide-building
helpers (`_clone_template_slide`, `_add_text_box`, `_add_rect`,
`create_title_slide`, `create_content_slide`, `create_presentation`,
`_fallback_title_slide`, `_fallback_content_slide`) become pure functions
that return the slide / presentation value the Python code leaves behind.
Lengths are EMU integers (python-pptx stores `Inches(x)` as `914400*x` and
`Pt(p)` as `12700*p`; every inch value in the source is a multiple of 0.01,
so all EMU values are exact integers).
-/

namespace PPTGen

/-- RGB colour triple, as `pptx.dml.color.RGBColor`. -/
structure RGB where
  r : Nat
  g : Nat
  b : Nat
deriving DecidableEq, Repr

/-- Brand colours of the template path (generator.py lines 12-17). -/
def COLOR_ORANGE : RGB := ⟨0xF5, 0x53, 0x3D⟩

/-- Secondary brand colour. -/
def COLOR_ORANGE2 : RGB := ⟨0xFF, 0x6B, 0x35⟩

/-- Deep navy. -/
def COLOR_NAVY : RGB := ⟨0x0F, 0x17, 0x2A⟩

/-- Body text colour. -/
def COLOR_SLATE : RGB := ⟨0x47, 0x55, 0x69⟩

/-- White. -/
def COLOR_WHITE : RGB := ⟨0xFF, 0xFF, 0xFF⟩

/-- Surface colour. -/
def COLOR_LIGHT : RGB := ⟨0xF8, 0xFA, 0xFC⟩

/-- Fallback theme colours (generator.py lines 253-257). -/
def COLOR_BG : RGB := ⟨0x0F, 0x17, 0x2A⟩

/-- Fallback accent A. -/
def COLOR_BLUE : RGB := ⟨0x35, 0x8E, 0xF1⟩

/-- Fallback accent B. -/
def COLOR_PURP : RGB := ⟨0x7C, 0x3A, 0xED⟩

/-- Fallback bullet text colour. -/
def COLOR_LGRAY : RGB := ⟨0xD0, 0xD8, 0xE8⟩

/-- Fallback bullet panel colour. -/
def COLOR_DBULLET : RGB := ⟨0x1A, 0x27, 0x45⟩

/-- EMU value of `Inches(x)` for `x` given in hundredths of an inch
(`Inches(x) = 914400*x`, so `emu 150 = Inches(1.50)`). -/
def emu (centiInches : Int) : Int := 9144 * centiInches

/-- EMU value of `Pt(p)` (`Pt(p) = 12700*p`). -/
def pt (p : Int) : Int := 12700 * p

/-- Template slide width, `SLIDE_W = Inches(20.00)` (generator.py line 20). -/
def SLIDE_W : Int := emu 2000

/-- Template slide height, `SLIDE_H = Inches(11.25)` (generator.py line 21). -/
def SLIDE_H : Int := emu 1125

/-- Fallback design width, `_FW = Inches(13.33)` (generator.py line 259). -/
def FW : Int := emu 1333

/-- Fallback design height, `_FH = Inches(7.5)` (generator.py line 260). -/
def FH : Int := emu 750

/-- Paragraph alignment (`PP_ALIGN`); only LEFT and CENTER are used. -/
inductive Align where
  | left
  | center
deriving DecidableEq, Repr

/-- Raw XML element of a template slide's shape tree (an lxml node that
`_clone_template_slide` deep-copies verbatim): its tag and its
attributes. -/
structure XElem where
  tag : String
  attrs : List (String × String)
deriving DecidableEq, Repr

/-- An XML subtree, represented by its elements in document order (the
nesting of child elements never affects relationship-reference
semantics, so the parent structure is elided; deep-copying a subtree
copies every one of these nodes and all of their attributes
verbatim). -/
abbrev XTree := List XElem

/-- An attribute key in the OOXML relationships namespace (`r:embed`,
`r:id`, `r:link`, ...), i.e. starting with `r:`: its value is a
relationship id. -/
def isRefKey (k : String) : Bool :=
  match k.data with
  | 'r' :: ':' :: _ => true
  | _ => false

/-- All relationship-reference attribute values occurring in an XML
subtree ("reference attributes" of the spec): every node and every
attribute is inspected. -/
def XTree.refIds (t : XTree) : List String :=
  t.flatMap fun e =>
    e.attrs.filterMap fun a => if isRefKey a.1 then some a.2 else none

/-- Kind of a relationship entry in a slide part's `.rels` table. -/
inductive RelKind where
  | slideLayout
  | slideMaster
  | image
  | hyperlink
deriving DecidableEq, Repr

/-- One relationship table entry: `(id, kind, target part, external)`. -/
structure Rel where
  rId : String
  kind : RelKind
  target : Nat
  external : Bool
deriving DecidableEq, Repr

/-- A shape in a slide's shape tree: either an XML element copied from a
template slide, or one of the shapes the generator's helpers add
(`_add_rect` → `rect`, `_add_text_box` → `textBox`). -/
inductive SlideShape where
  | copied (x : XTree)
  | rect (left top width height : Int) (color : RGB)
  | textBox (text : String) (left top width height : Int)
      (fontSize : Nat) (bold : Bool) (color : RGB) (align : Align)
      (italic : Bool) (lineSpacing : Option Int)
deriving Repr

/-- A slide part: its layout part id, its own relationship table, its
shape tree, and its explicit background fill (set only by the fallback
path). -/
structure Slide where
  layout : Nat
  rels : List Rel
  spTree : List SlideShape
  bg : Option RGB
deriving Repr

/-- Default slide used for out-of-range indexing. -/
def defaultSlide : Slide := ⟨0, [], [], none⟩

/-- A presentation: slide size, the part ids of `prs.slide_layouts`, and
the ordered slide list. -/
structure Presentation where
  slideWidth : Int
  slideHeight : Int
  layouts : List Nat
  slides : List Slide
deriving Repr

/-- The presentation `Presentation()` returns: python-pptx's default
template, 10 x 7.5 inches, 11 slide layouts (index 6 is the Blank
layout), no slides.  Layout part ids are numbered 0..10. -/
def defaultPresentation : Presentation :=
  { slideWidth := emu 1000
    slideHeight := emu 750
    layouts := [0, 1, 2, 3, 4, 5, 6, 7, 8, 9, 10]
    slides := [] }

/-- The slide `prs.slides.add_slide(layout)` creates: it references the
given layout, its own relationship table holds exactly the relationship
to that layout (id `rId1`), and its shape tree is empty (the Blank layout
has no placeholders to clone). -/
def newSlideOnLayout (layoutRef : Nat) : Slide :=
  { layout := layoutRef
    rels := [⟨"rId1", RelKind.slideLayout, layoutRef, false⟩]
    spTree := []
    bg := none }

/-- Value of the slide `_clone_template_slide(prs, template_slide)`
produces (generator.py lines 26-40): a fresh slide on `prs`'s Blank
layout (`prs.slide_layouts[6]`) whose shape tree is a deep copy of the
template slide's shape tree.  No relationship of the template slide is
copied and no reference attribute is rewritten. -/
def cloneSlideVal (blankLayout : Nat) (templateSlide : Slide) : Slide :=
  { newSlideOnLayout blankLayout with spTree := templateSlide.spTree }

/-- The whole effect of `_clone_template_slide` on the presentation: the
new slide is appended to `prs.slides`; the function returns the updated
presentation together with the new slide. -/
def clone_template_slide (prs : Presentation) (templateSlide : Slide) :
    Presentation × Slide :=
  let newSlide := cloneSlideVal (prs.layouts.getD 6 0) templateSlide
  ({ prs with slides := prs.slides ++ [newSlide] }, newSlide)

/-- Effect of `_add_rect(slide, left, top, width, height, color)`: append
a filled rectangle shape. -/
def addRect (s : Slide) (left top width height : Int) (color : RGB) :
    Slide :=
  { s with spTree := s.spTree ++ [SlideShape.rect left top width height color] }

/-- Effect of `_add_text_box(slide, text, ...)`: append a styled text
box shape. -/
def addTextBox (s : Slide) (text : String) (left top width height : Int)
    (fontSize : Nat) (bold : Bool) (color : RGB) (align : Align)
    (italic : Bool) (lineSpacing : Option Int) : Slide :=
  { s with spTree := s.spTree ++
      [SlideShape.textBox text left top width height fontSize bold color
        align italic lineSpacing] }

/-- Python's `str(slide_num).zfill(2)`: decimal digits, left-padded with
zeros to width 2. -/
def pyZfill2 (n : Nat) : String :=
  let s := toString n
  if s.length < 2 then "0" ++ s else s

/-- Value of the slide `create_title_slide(prs, template_title_slide,
title)` leaves behind (generator.py lines 86-118): the clone of the
template title slide, then the orange accent bar, the main title text
(60pt bold navy) and the tagline (20pt italic orange). -/
def createTitleSlideVal (blankLayout : Nat) (tmplTitle : Slide)
    (title : String) : Slide :=
  let s := cloneSlideVal blankLayout tmplTitle
  let s := addRect s (emu 150) (emu 320) (emu 120) (pt 4) COLOR_ORANGE
  let s := addTextBox s title (emu 150) (emu 340) (emu 1100) (emu 280)
    60 true COLOR_NAVY Align.left false none
  addTextBox s "AI-Powered Presentation  ·  iamneo"
    (emu 150) (emu 640) (emu 1000) (emu 70)
    20 false COLOR_ORANGE Align.left true none

/-- Shapes the bullet loop of `create_content_slide` appends for the
bullet list (generator.py lines 167-194): for each retained point, a row
background panel, an accent dot, and the bullet text (22pt, not bold,
slate); `i` is the loop index, `y = Inches(1.75) + i * Inches(1.45)`. -/
def bulletShapesT (accent : RGB) : List String → Nat → List SlideShape
  | [], _ => []
  | point :: ps, i =>
      let y := emu 175 + (i : Int) * emu 145
      SlideShape.rect (emu 100) y (emu 1750) (emu 130) ⟨0xF8, 0xFA, 0xFC⟩ ::
      SlideShape.rect (emu 115) (y + emu 50) (emu 18) (emu 18) accent ::
      SlideShape.textBox point (emu 150) (y + pt 4) (emu 1680) (emu 120)
        22 false COLOR_SLATE Align.left false none ::
      bulletShapesT accent ps (i + 1)

/-- Value of the slide `create_content_slide(prs, template_content_slide,
slide_title, content, slide_num)` leaves behind (generator.py lines
121-194): the clone of the template content slide, then the top accent
bar, the slide-number badge (rect + centred 18pt bold white text), the
slide title (38pt bold navy), the divider, and the bullet shapes for
`content[:5]`.  The accent is `COLOR_ORANGE` when `slide_num` is even,
`COLOR_ORANGE2` when odd (line 129). -/
def contentSlideVal (blankLayout : Nat) (tmplContent : Slide)
    (slideTitle : String) (content : List String) (slideNum : Nat) :
    Slide :=
  let accent := if slideNum % 2 == 0 then COLOR_ORANGE else COLOR_ORANGE2
  let s := cloneSlideVal blankLayout tmplContent
  let s := addRect s (emu 0) (emu 0) SLIDE_W (pt 6) accent
  let s := addRect s (emu 1880) (emu 10) (emu 90) (emu 65) accent
  let s := addTextBox s (pyZfill2 slideNum) (emu 1880) (emu 10) (emu 90)
    (emu 65) 18 true COLOR_WHITE Align.center false none
  let s := addTextBox s slideTitle (emu 100) (emu 30) (emu 1750) (emu 120)
    38 true COLOR_NAVY Align.left false none
  let s := addRect s (emu 100) (emu 155) (emu 1750) (pt 2) accent
  { s with spTree := s.spTree ++ bulletShapesT accent (content.take 5) 0 }

/-- A slide descriptor as the generator receives it: a Python dict whose
`"title"` and `"content"` keys may be absent (`dict.get` with default). -/
structure Descriptor where
  title : Option String
  content : Option (List String)
deriving Repr

/-- Content slides the template path's loop appends (generator.py lines
224-231): descriptor `i` (0-based, counter starting at `start`) becomes
`create_content_slide(...)` with title default `f"Slide {i+1}"`, content
default `[]`, and `slide_num = i + 1`; every clone starts from the same
`template_content_slide`. -/
def contentSlidesT (blankLayout : Nat) (tmplContent : Slide) :
    List Descriptor → Nat → List Slide
  | [], _ => []
  | d :: ds, i =>
      contentSlideVal blankLayout tmplContent
        (d.title.getD (s!"Slide {i + 1}")) (d.content.getD []) (i + 1) ::
      contentSlidesT blankLayout tmplContent ds (i + 1)

/-- The template path of `create_presentation` (generator.py lines
206-231), threading the template presentation through: the output starts
as `Presentation()` with the template's slide size (lines 216-218), gets
the title slide cloned from `template_prs.slides[0]`, then one content
slide per descriptor cloned from `template_prs.slides[1]`.  Returns the
built output presentation together with the template presentation as it
stands afterwards (the code never writes to it: `_clone_template_slide`
deep-copies before appending).  The template is assumed to have at least
2 slides; Python raises `IndexError` otherwise. -/
def createPresentationT (tmplPrs : Presentation) (title : String)
    (slideData : List Descriptor) : Presentation × Presentation :=
  let prs := { defaultPresentation with
                 slideWidth := tmplPrs.slideWidth
                 slideHeight := tmplPrs.slideHeight }
  let blank := prs.layouts.getD 6 0
  ({ prs with slides :=
       createTitleSlideVal blank (tmplPrs.slides.getD 0 defaultSlide) title ::
       contentSlidesT blank (tmplPrs.slides.getD 1 defaultSlide) slideData 0 },
   tmplPrs)

/-- Value of the slide `_fallback_title_slide(prs, title)` leaves behind
(generator.py lines 263-273). -/
def fallbackTitleSlideVal (blankLayout : Nat) (title : String) : Slide :=
  let s := { newSlideOnLayout blankLayout with bg := some COLOR_BG }
  let s := addRect s (emu 0) (emu 0) FW (emu 7) COLOR_BLUE
  let s := addRect s (emu 0) (emu 743) FW (emu 7) COLOR_PURP
  let s := addRect s (emu 0) (emu 0) (emu 7) FH COLOR_PURP
  let s := addTextBox s title (emu 80) (emu 250) (emu 800) (emu 180)
    52 true COLOR_WHITE Align.left false none
  addTextBox s "AI-Powered Presentation" (emu 80) (emu 450) (emu 700)
    (emu 60) 18 false ⟨0x92, 0xBC, 0xF5⟩ Align.left true none

/-- Shapes the bullet loop of `_fallback_content_slide` appends
(generator.py lines 288-293): `y = Inches(1.4) + i * Inches(0.7)`; panel,
accent marker, and 18pt bullet text. -/
def bulletShapesF (accent : RGB) : List String → Nat → List SlideShape
  | [], _ => []
  | point :: ps, i =>
      let y := emu 140 + (i : Int) * emu 70
      SlideShape.rect (emu 70) y (emu 1150) (emu 58) COLOR_DBULLET ::
      SlideShape.rect (emu 85) (y + emu 20) (emu 12) (emu 18) accent ::
      SlideShape.textBox point (emu 115) (y + pt 2) (emu 1100) (emu 55)
        18 false COLOR_LGRAY Align.left false none ::
      bulletShapesF accent ps (i + 1)

/-- Value of the slide `_fallback_content_slide(prs, slide_title,
content, slide_num)` leaves behind (generator.py lines 276-293): a fresh
blank-layout slide with dark background, accent bars, title (34pt bold
white), divider, badge (rect + 16pt bold white centred text), and the
bullet shapes for `content[:6]`.  The accent is `COLOR_BLUE` when
`slide_num` is even, `COLOR_PURP` when odd (line 279). -/
def fallbackContentSlideVal (blankLayout : Nat) (slideTitle : String)
    (content : List String) (slideNum : Nat) : Slide :=
  let accent := if slideNum % 2 == 0 then COLOR_BLUE else COLOR_PURP
  let s := { newSlideOnLayout blankLayout with bg := some COLOR_BG }
  let s := addRect s (emu 0) (emu 0) FW (emu 8) accent
  let s := addRect s (emu 0) (emu 0) (emu 40) FH accent
  let s := addTextBox s slideTitle (emu 70) (emu 25) (emu 1230) (emu 90)
    34 true COLOR_WHITE Align.left false none
  let s := addRect s (emu 70) (emu 115) (emu 1150) (pt 2) accent
  let s := addRect s (emu 1230) (emu 25) (emu 80) (emu 60) accent
  let s := addTextBox s (pyZfill2 slideNum) (emu 1230) (emu 25) (emu 80)
    (emu 60) 16 true COLOR_WHITE Align.center false none
  { s with spTree := s.spTree ++ bulletShapesF accent (content.take 6) 0 }

/-- Content slides of the fallback loop (generator.py lines 239-240):
title default is the constant `"Slide"`, content default `[]`,
`slide_num = i + 1`. -/
def contentSlidesF (blankLayout : Nat) :
    List Descriptor → Nat → List Slide
  | [], _ => []
  | d :: ds, i =>
      fallbackContentSlideVal blankLayout (d.title.getD "Slide")
        (d.content.getD []) (i + 1) ::
      contentSlidesF blankLayout ds (i + 1)

/-- The fallback path of `create_presentation` (generator.py lines
232-240): `Presentation()` resized to `SLIDE_W x SLIDE_H`, one fallback
title slide, then one fallback content slide per descriptor. -/
def createPresentationF (title : String) (slideData : List Descriptor) :
    Presentation :=
  let prs := { defaultPresentation with
                 slideWidth := SLIDE_W
                 slideHeight := SLIDE_H }
  let blank := prs.layouts.getD 6 0
  { prs with slides :=
      fallbackTitleSlideVal blank title ::
      contentSlidesF blank slideData 0 }

/-- All relationship-reference attribute values of one shape: decoration
shapes added by `_add_rect` / `_add_text_box` carry none (autoshapes and
text boxes create no relationship), copied XML carries its `r:`
attributes. -/
def shapeRefIds : SlideShape → List String
  | .copied x => XTree.refIds x
  | _ => []

/-- All reference attribute values in a slide's shape tree. -/
def slideRefIds (s : Slide) : List String := s.spTree.flatMap shapeRefIds

/-- The relationship ids present in a slide's own relationship table. -/
def relIds (s : Slide) : List String := s.rels.map (·.rId)

/-- Reference attributes of a slide's shape tree that do NOT resolve in
the slide's own relationship table.  Invariant 1 of the spec holds for a
slide exactly when this list is empty. -/
def danglingRefs (s : Slide) : List String :=
  (slideRefIds s).filter (fun r => ¬ r ∈ relIds s)

/-- Internal relationship entries of a slide, in the sense of the spec's
resource-preservation property: not layout, not master, not external. -/
def internalRels (s : Slide) : List Rel :=
  s.rels.filter (fun r =>
    !r.external && r.kind ≠ RelKind.slideLayout && r.kind ≠ RelKind.slideMaster)

/-- Is every shape of the slide a copied template XML element?  True of
every slide loaded from a `.pptx` file (the template archetypes): only
this generator's own helpers produce `rect` / `textBox` shapes. -/
def copiedOnly (s : Slide) : Bool :=
  s.spTree.all fun sh =>
    match sh with
    | .copied _ => true
    | _ => false

/-- Selects the text of a non-bold text box (bullet bodies: on a content
slide of either path the badge and the heading are bold, and the
template's own artwork consists of copied XML shapes). -/
def bulletTextF : SlideShape → Option String
  | .textBox t _ _ _ _ _ false _ _ _ _ => some t
  | _ => none

/-- Texts of the non-bold text boxes of a slide, i.e. the rendered
bullet bodies of a content slide, in shape-tree order. -/
def bulletTexts (s : Slide) : List String := s.spTree.filterMap bulletTextF

/-- Selects the colour of a rectangle shape. -/
def rectColorF : SlideShape → Option RGB
  | .rect _ _ _ _ c => some c
  | _ => none

/-- Colour of the first rectangle shape the generator added to the
slide; on a content slide of either path this is the top accent bar. -/
def topBarColor (s : Slide) : Option RGB :=
  (s.spTree.filterMap rectColorF).head?

/-- Selects the text of a bold text box at 60pt (template-path main
title) or 52pt (fallback main title). -/
def mainTitleF : SlideShape → Option String
  | .textBox t _ _ _ _ fs true _ _ _ _ =>
      if fs = 60 ∨ fs = 52 then some t else none
  | _ => none

/-- Text of the main heading of a title slide. -/
def mainTitleText (s : Slide) : Option String :=
  (s.spTree.filterMap mainTitleF).head?

/-- Selects the text of a bold text box at 38pt (template-path content
heading) or 34pt (fallback content heading); the only other bold text
boxes on a content slide are the 18pt / 16pt badge. -/
def contentTitleF : SlideShape → Option String
  | .textBox t _ _ _ _ fs true _ _ _ _ =>
      if fs = 38 ∨ fs = 34 then some t else none
  | _ => none

/-- Text of the heading of a content slide. -/
def contentTitleText (s : Slide) : Option String :=
  (s.spTree.filterMap contentTitleF).head?

/-- Python's `c.isalnum()` for the ASCII characters that occur in titles
(ASCII letters and digits). -/
def pyIsAlnum (c : Char) : Bool := c.isAlpha || c.isDigit

/-- Is `c` kept verbatim by the sanitiser: alphanumeric or in `" _-"`. -/
def keptChar (c : Char) : Bool :=
  pyIsAlnum c || c = ' ' || c = '_' || c = '-'

/-- One character of `safe_title` (generator.py line 245):
`c if c.isalnum() or c in " _-" else "_"`. -/
def safeChar (c : Char) : Char := if keptChar c then c else '_'

/-- The `safe_title` string of generator.py line 245. -/
def safeTitle (t : String) : String := String.mk (t.data.map safeChar)

/-- Python's `s.replace(' ', '_')` (single-character replace). -/
def replaceSpaces (t : String) : String :=
  String.mk (t.data.map fun c => if c = ' ' then '_' else c)

/-- The output filename `f"{safe_title.replace(' ', '_')}.pptx"`
(generator.py line 246). -/
def outputFilename (t : String) : String :=
  replaceSpaces (safeTitle t) ++ ".pptx"

/-- Modelled from the spec: the filename derivation as §6 words it —
KEEP alphanumerics / space / hyphen / underscore (dropping every other
character) and replace spaces with underscores.  Stated for comparison
with `outputFilename`, which is the derivation the code performs. -/
def specKeepFilename (t : String) : String :=
  replaceSpaces (String.mk (t.data.filter keptChar)) ++ ".pptx"

/-- The value `create_presentation` actually returns (generator.py lines
243-248): the on-disk path `os.path.join(dirname, "generated_ppts",
f"{...}.pptx")` as a single string; `dir` stands for the directory of
`generator.py`. -/
def createPresentationReturn (dir : String) (title : String) : String :=
  dir ++ "/generated_ppts/" ++ outputFilename title

/-- Python tuple-unpacking `a, b = s` of a string into two targets
(main.py line 54, `buf, filename = create_presentation(...)`): succeeds
with the two characters when the string has length exactly 2, raises
`ValueError` (here: `none`) otherwise. -/
def unpackPair (s : String) : Option (Char × Char) :=
  match s.data with
  | [a, b] => some (a, b)
  | _ => none

/-- One entry of the download store of main.py line 30: an in-memory
buffer (opaque id) and the filename. -/
structure StoreEntry where
  buf : Nat
  filename : String
deriving DecidableEq, Repr

/-- The `_ppt_store` dict, modelled as an association list with unique
keys (lookups and removals below never observe the order). -/
abbrev Store := List (String × StoreEntry)

/-- Python dict assignment `_ppt_store[token] = entry` (main.py line
58): binds `token`, replacing any previous binding. -/
def storeInsert (store : Store) (token : String) (entry : StoreEntry) :
    Store :=
  (token, entry) :: store.filter (fun p => p.1 ≠ token)

/-- Python dict lookup `_ppt_store[token]` as an option. -/
def storeLookup (store : Store) (token : String) : Option StoreEntry :=
  (store.find? (fun p => p.1 == token)).map (·.2)

/-- Python `_ppt_store.pop(token, None)` (main.py line 75): returns the
entry and removes the binding when present; returns `none` and leaves
the store untouched when absent. -/
def popToken (store : Store) (token : String) :
    Option StoreEntry × Store :=
  match storeLookup store token with
  | none => (none, store)
  | some v => (some v, store.filter (fun p => p.1 ≠ token))

/-- The `/download/{token}` endpoint (main.py lines 72-86): pop the
token; `none` means HTTP 404 ("File not found or already downloaded."),
`some entry` means the buffer is streamed to the client.  The second
component is `_ppt_store` after the request. -/
def downloadPpt (store : Store) (token : String) :
    Option StoreEntry × Store :=
  popToken store token

/-- A template content archetype holding one embedded image: its table
has one internal (image) relationship `rId2`, plus its layout
relationship, and its shape tree holds one picture element whose
`r:embed` reference attribute points at `rId2` (so K = 1 embedded
resource). -/
def demoContentTmpl : Slide :=
  { layout := 56
    rels := [⟨"rId2", RelKind.image, 42, false⟩,
             ⟨"rId1", RelKind.slideLayout, 56, false⟩]
    spTree := [SlideShape.copied [⟨"p:pic", [("r:embed", "rId2")]⟩]]
    bg := none }

/-- A template title archetype with one decorative copied shape. -/
def demoTitleTmpl : Slide :=
  { layout := 56
    rels := [⟨"rId1", RelKind.slideLayout, 56, false⟩]
    spTree := [SlideShape.copied [⟨"p:sp", []⟩]]
    bg := none }

/-- A two-slide user template presentation (slide 0 = title archetype,
slide 1 = content archetype), with layout part ids 50..60 of its own. -/
def demoTemplatePrs : Presentation :=
  { slideWidth := emu 2000
    slideHeight := emu 1125
    layouts := [50, 51, 52, 53, 54, 55, 56, 57, 58, 59, 60]
    slides := [demoTitleTmpl, demoContentTmpl] }

/-- Two demo slide descriptors. -/
def demoData : List Descriptor :=
  [⟨some "A", some ["x", "y"]⟩, ⟨none, none⟩]

/-- A selector that ignores copied template XML extracts nothing from an
all-copied shape tree. -/
theorem filterMap_eq_nil_of_all_copied {α : Type} (f : SlideShape → Option α)
    (hf : ∀ x, f (SlideShape.copied x) = none) :
    ∀ l : List SlideShape,
      (l.all fun sh =>
        match sh with
        | SlideShape.copied _ => true
        | _ => false) = true →
      l.filterMap f = [] := by
  intro l h
  induction l with
  | nil => rfl
  | cons sh l ih =>
      rw [List.all_cons, Bool.and_eq_true] at h
      obtain ⟨h1, h2⟩ := h
      cases sh with
      | copied x => rw [List.filterMap_cons_none (hf x)]; exact ih h2
      | rect a b c d e => simp at h1
      | textBox a b c d e f g h i j k => simp at h1

/-- Restatement over a slide satisfying `copiedOnly`. -/
theorem filterMap_copiedOnly {α : Type} (f : SlideShape → Option α)
    (hf : ∀ x, f (SlideShape.copied x) = none) (s : Slide)
    (h : copiedOnly s = true) : s.spTree.filterMap f = [] :=
  filterMap_eq_nil_of_all_copied f hf s.spTree h

/-- Claim C1 — corrected.  `_clone_template_slide` performs no
relationship-id minting and no reference rewriting: the copied shape
tree's reference attributes are identical to the source's, the new
slide's own relationship table holds exactly the blank-layout
relationship `rId1`, and consequently every reference attribute of the
source tree whose id is not `rId1` is dangling in the copy (invariant 1
fails whenever the source holds any such reference). -/
theorem clone_no_remap_dangling (prs : Presentation) (tmpl : Slide) :
    slideRefIds (clone_template_slide prs tmpl).2 = slideRefIds tmpl ∧
    relIds (clone_template_slide prs tmpl).2 = ["rId1"] ∧
    ∀ r ∈ slideRefIds tmpl, r ≠ "rId1" →
      r ∈ danglingRefs (clone_template_slide prs tmpl).2 := by
  refine ⟨rfl, rfl, ?_⟩
  intro r hr hne
  have hs : slideRefIds (clone_template_slide prs tmpl).2 = slideRefIds tmpl := rfl
  simp only [danglingRefs, List.mem_filter, hs, decide_eq_true_eq]
  refine ⟨hr, ?_⟩
  show ¬ r ∈ relIds (clone_template_slide prs tmpl).2
  intro hmem
  have : r ∈ ["rId1"] := hmem
  simp only [List.mem_singleton] at this
  exact hne this

/-- Witness for `clone_no_remap_dangling` at the demo template: the
image reference `rId2` of the archetype dangles in the clone. -/
theorem clone_no_remap_dangling_witness :
    "rId2" ∈ danglingRefs
      (clone_template_slide defaultPresentation demoContentTmpl).2 :=
  (clone_no_remap_dangling defaultPresentation demoContentTmpl).2.2
    "rId2" (by decide) (by decide)

/-- Counterexample to claim C1 as stated: duplicating the demo
archetype (one embedded image, reference `rId2`) leaves exactly `rId2`
dangling in the new slide — not zero dangling references. -/
theorem clone_dangling_counterexample :
    danglingRefs (clone_template_slide defaultPresentation demoContentTmpl).2
      = ["rId2"] ∧
    ¬ danglingRefs (clone_template_slide defaultPresentation demoContentTmpl).2
      = [] := by
  constructor
  · decide
  · decide

/-- An auxiliary fact: every slide the template path ever appends has as
relationship table exactly the one blank-layout relationship, so its
internal relationship list is empty.  Stated for the content clones. -/
theorem internalRels_contentSlideVal (b : Nat) (tm : Slide) (t : String)
    (c : List String) (n : Nat) : internalRels (contentSlideVal b tm t c n) = [] :=
  rfl

/-- Content slides of the template loop all carry zero internal
relationship entries, at every index. -/
theorem internalRels_contentSlidesT_getD (b : Nat) (tm : Slide) :
    ∀ (ds : List Descriptor) (j i : Nat),
      internalRels ((contentSlidesT b tm ds j).getD i defaultSlide) = [] := by
  intro ds
  induction ds with
  | nil => intro j i; cases i <;> rfl
  | cons d ds ih =>
      intro j i
      cases i with
      | zero => rfl
      | succ i => rw [contentSlidesT, List.getD_cons_succ]; exact ih (j + 1) i

/-- Claim C2 — corrected.  Duplicating the content archetype M times
does produce M new slides, but each new slide's relationship table
contains exactly zero internal (non-layout, non-master, non-external)
relationship entries — no resource relationship of the source is carried
over at all (rather than K shared entries): every slide of the template
path's output, at every index, has an empty internal relationship
list. -/
theorem clones_have_no_internal_rels (tmplPrs : Presentation)
    (title : String) (data : List Descriptor) (i : Nat) :
    internalRels
      ((createPresentationT tmplPrs title data).1.slides.getD i defaultSlide)
      = [] := by
  cases i with
  | zero => rfl
  | succ i =>
      show internalRels
        ((contentSlidesT 6 (tmplPrs.slides.getD 1 defaultSlide) data 0).getD i
          defaultSlide) = []
      exact internalRels_contentSlidesT_getD 6 _ data 0 i

/-- Counterexample to claim C2 as stated: the demo archetype references
K = 1 embedded resource, yet after one duplication (M = 1) the new
slide's relationship table holds 0 internal entries, not 1. -/
theorem clone_internal_rels_counterexample :
    (internalRels demoContentTmpl).length = 1 ∧
    (internalRels
      ((createPresentationT demoTemplatePrs "T" [⟨some "A", some ["x"]⟩]).1.slides.getD
        1 defaultSlide)).length = 0 ∧
    ¬ (internalRels
      ((createPresentationT demoTemplatePrs "T" [⟨some "A", some ["x"]⟩]).1.slides.getD
        1 defaultSlide)).length = 1 := by
  refine ⟨by decide, by decide, by decide⟩

/-- Claim C4 — corrected.  The clone is NOT created on the source
unit's layout: `_clone_template_slide` always uses
`prs.slide_layouts[6]`, the Blank layout of the freshly constructed
output presentation, whatever the source slide's layout is; the new
slide's own relationship table starts with exactly that blank-layout
relationship (`rId1`) and nothing else.  Whenever the source's layout
differs from the output's blank layout, the copy's layout differs from
the source's. -/
theorem clone_uses_output_blank_layout (prs : Presentation) (tmpl : Slide) :
    (clone_template_slide prs tmpl).2.layout = prs.layouts.getD 6 0 ∧
    (clone_template_slide prs tmpl).2.rels =
      [⟨"rId1", RelKind.slideLayout, prs.layouts.getD 6 0, false⟩] ∧
    (tmpl.layout ≠ prs.layouts.getD 6 0 →
      (clone_template_slide prs tmpl).2.layout ≠ tmpl.layout) := by
  refine ⟨rfl, rfl, ?_⟩
  intro h hcontra
  exact h (Eq.symm hcontra)

/-- Witness for `clone_uses_output_blank_layout`: the demo archetype
lives on layout part 56, the output presentation's blank layout is part
6, and the clone lands on 6, not 56. -/
theorem clone_uses_output_blank_layout_witness :
    demoContentTmpl.layout ≠ defaultPresentation.layouts.getD 6 0 ∧
    (clone_template_slide defaultPresentation demoContentTmpl).2.layout ≠
      demoContentTmpl.layout :=
  ⟨by decide,
   (clone_uses_output_blank_layout defaultPresentation demoContentTmpl).2.2
     (by decide)⟩

/-- Counterexample to claim C4 as stated: the clone of the demo
archetype does not use the source unit's layout. -/
theorem clone_layout_counterexample :
    (clone_template_slide defaultPresentation demoContentTmpl).2.layout = 6 ∧
    demoContentTmpl.layout = 56 ∧
    ¬ (clone_template_slide defaultPresentation demoContentTmpl).2.layout =
        demoContentTmpl.layout := by
  refine ⟨by decide, by decide, by decide⟩

/-- The shape tree of a content clone starts with the archetype's shape
tree: the decoration overlay only appends. -/
theorem take_spTree_contentSlideVal (b : Nat) (tm : Slide) (t : String)
    (c : List String) (n : Nat) :
    (contentSlideVal b tm t c n).spTree.take tm.spTree.length = tm.spTree := by
  show (contentSlideVal b tm t c n).spTree.take tm.spTree.length = tm.spTree
  simp only [contentSlideVal, addRect, addTextBox, cloneSlideVal,
    newSlideOnLayout, List.append_assoc, List.cons_append, List.nil_append,
    List.singleton_append]
  exact List.take_left tm.spTree _

/-- Every slide of the template loop's output list is based on the one
archetype passed in: its shape tree starts with the archetype's. -/
theorem take_contentSlidesT_get (b : Nat) (tm : Slide) :
    ∀ (ds : List Descriptor) (j i : Nat)
      (h : i < (contentSlidesT b tm ds j).length),
      ((contentSlidesT b tm ds j).get ⟨i, h⟩).spTree.take tm.spTree.length =
        tm.spTree := by
  intro ds
  induction ds with
  | nil => intro j i h; exact absurd h (by simp [contentSlidesT])
  | cons d ds ih =>
      intro j i h
      cases i with
      | zero => exact take_spTree_contentSlideVal b tm _ _ _
      | succ i => exact ih (j + 1) i _

/-- Claim C5 — confirmed.  Building a whole presentation from the
template mutates the template presentation in no way (the clone step
deep-copies the archetype's shape tree and never writes to the source:
the template returned after the run is the template passed in), and
every content slot is cloned from the original archetype of slot 1 of
the template — each content slide's shape tree begins with the
archetype's own shape tree, unchanged, however many duplications are
performed. -/
theorem source_untouched_clones_from_original (tmplPrs : Presentation)
    (title : String) (data : List Descriptor) :
    (createPresentationT tmplPrs title data).2 = tmplPrs ∧
    ∀ (i : Nat) (h : i + 1 < (createPresentationT tmplPrs title data).1.slides.length),
      ((createPresentationT tmplPrs title data).1.slides.get ⟨i + 1, h⟩).spTree.take
          (tmplPrs.slides.getD 1 defaultSlide).spTree.length =
        (tmplPrs.slides.getD 1 defaultSlide).spTree := by
  refine ⟨rfl, ?_⟩
  intro i h
  exact take_contentSlidesT_get 6 (tmplPrs.slides.getD 1 defaultSlide) data 0 i _

/-- Witness for `source_untouched_clones_from_original`: three
duplications of the demo archetype; the template is unchanged and slide
2 of the output still starts with the archetype's tree. -/
theorem source_untouched_clones_from_original_witness :
    (createPresentationT demoTemplatePrs "T"
      [⟨some "A", none⟩, ⟨some "B", none⟩, ⟨some "C", none⟩]).2 =
      demoTemplatePrs ∧
    ((createPresentationT demoTemplatePrs "T"
      [⟨some "A", none⟩, ⟨some "B", none⟩, ⟨some "C", none⟩]).1.slides.get
        ⟨2, by decide⟩).spTree.take
      (demoTemplatePrs.slides.getD 1 defaultSlide).spTree.length =
      (demoTemplatePrs.slides.getD 1 defaultSlide).spTree :=
  ⟨(source_untouched_clones_from_original demoTemplatePrs "T"
      [⟨some "A", none⟩, ⟨some "B", none⟩, ⟨some "C", none⟩]).1,
   (source_untouched_clones_from_original demoTemplatePrs "T"
      [⟨some "A", none⟩, ⟨some "B", none⟩, ⟨some "C", none⟩]).2 1 (by decide)⟩

/-- The template loop emits one slide per descriptor. -/
theorem contentSlidesT_length (b : Nat) (tm : Slide) :
    ∀ (ds : List Descriptor) (j : Nat),
      (contentSlidesT b tm ds j).length = ds.length := by
  intro ds
  induction ds with
  | nil => intro j; rfl
  | cons d ds ih => intro j; simp [contentSlidesT, ih (j + 1)]

/-- The fallback loop emits one slide per descriptor. -/
theorem contentSlidesF_length (b : Nat) :
    ∀ (ds : List Descriptor) (j : Nat),
      (contentSlidesF b ds j).length = ds.length := by
  intro ds
  induction ds with
  | nil => intro j; rfl
  | cons d ds ih => intro j; simp [contentSlidesF, ih (j + 1)]

/-- Slide `i` of the template loop's output is the decorated clone for
descriptor `i`, with slide number `j + i + 1` and the loop's default
title. -/
theorem contentSlidesT_getD (b : Nat) (tm : Slide) :
    ∀ (ds : List Descriptor) (j i : Nat) (h : i < ds.length),
      (contentSlidesT b tm ds j).getD i defaultSlide =
        contentSlideVal b tm
          ((ds.get ⟨i, h⟩).title.getD (s!"Slide {j + i + 1}"))
          ((ds.get ⟨i, h⟩).content.getD []) (j + i + 1) := by
  intro ds
  induction ds with
  | nil => intro j i h; exact absurd h (by simp)
  | cons d ds ih =>
      intro j i h
      cases i with
      | zero => rfl
      | succ i =>
          rw [contentSlidesT, List.getD_cons_succ,
            ih (j + 1) i (by exact Nat.lt_of_succ_lt_succ h),
            show j + 1 + i + 1 = j + (i + 1) + 1 from by omega]
          rfl

/-- Slide `i` of the fallback loop's output is the fallback content
slide for descriptor `i`, default title `"Slide"`. -/
theorem contentSlidesF_getD (b : Nat) :
    ∀ (ds : List Descriptor) (j i : Nat) (h : i < ds.length),
      (contentSlidesF b ds j).getD i defaultSlide =
        fallbackContentSlideVal b ((ds.get ⟨i, h⟩).title.getD "Slide")
          ((ds.get ⟨i, h⟩).content.getD []) (j + i + 1) := by
  intro ds
  induction ds with
  | nil => intro j i h; exact absurd h (by simp)
  | cons d ds ih =>
      intro j i h
      cases i with
      | zero => rfl
      | succ i =>
          rw [contentSlidesF, List.getD_cons_succ,
            ih (j + 1) i (by exact Nat.lt_of_succ_lt_succ h),
            show j + 1 + i + 1 = j + (i + 1) + 1 from by omega]
          rfl

/-- The template-path bullet shapes contain no bold text box, so the
heading selector finds nothing in them. -/
theorem filterMap_contentTitleF_bulletShapesT (accent : RGB) :
    ∀ (l : List String) (i : Nat),
      (bulletShapesT accent l i).filterMap contentTitleF = [] := by
  intro l
  induction l with
  | nil => intro i; rfl
  | cons p ps ih => intro i; simp [bulletShapesT, contentTitleF, ih (i + 1)]

/-- The fallback bullet shapes contain no bold text box either. -/
theorem filterMap_contentTitleF_bulletShapesF (accent : RGB) :
    ∀ (l : List String) (i : Nat),
      (bulletShapesF accent l i).filterMap contentTitleF = [] := by
  intro l
  induction l with
  | nil => intro i; rfl
  | cons p ps ih => intro i; simp [bulletShapesF, contentTitleF, ih (i + 1)]

/-- The main heading overlaid on a template-path title slide is the
requested presentation title. -/
theorem mainTitleText_createTitleSlideVal (b : Nat) (tmpl : Slide)
    (title : String) (h : copiedOnly tmpl = true) :
    mainTitleText (createTitleSlideVal b tmpl title) = some title := by
  have h0 : tmpl.spTree.filterMap mainTitleF = [] :=
    filterMap_copiedOnly _ (fun x => rfl) tmpl h
  simp [mainTitleText, createTitleSlideVal, addRect, addTextBox,
    cloneSlideVal, newSlideOnLayout, List.filterMap_append, h0, mainTitleF]

/-- The main heading of a fallback title slide is the requested
presentation title. -/
theorem mainTitleText_fallbackTitleSlideVal (b : Nat) (title : String) :
    mainTitleText (fallbackTitleSlideVal b title) = some title := by
  simp [mainTitleText, fallbackTitleSlideVal, addRect, addTextBox,
    newSlideOnLayout, List.filterMap_append, mainTitleF]

/-- The heading overlaid on a template-path content slide is the
descriptor's title. -/
theorem contentTitleText_contentSlideVal (b : Nat) (tm : Slide)
    (t : String) (c : List String) (n : Nat) (h : copiedOnly tm = true) :
    contentTitleText (contentSlideVal b tm t c n) = some t := by
  have h0 : tm.spTree.filterMap contentTitleF = [] :=
    filterMap_copiedOnly _ (fun x => rfl) tm h
  simp [contentTitleText, contentSlideVal, addRect, addTextBox,
    cloneSlideVal, newSlideOnLayout, List.filterMap_append, h0,
    filterMap_contentTitleF_bulletShapesT, contentTitleF]

/-- The heading of a fallback content slide is the descriptor's title. -/
theorem contentTitleText_fallbackContentSlideVal (b : Nat) (t : String)
    (c : List String) (n : Nat) :
    contentTitleText (fallbackContentSlideVal b t c n) = some t := by
  simp [contentTitleText, fallbackContentSlideVal, addRect, addTextBox,
    newSlideOnLayout, List.filterMap_append,
    filterMap_contentTitleF_bulletShapesF, contentTitleF]

/-- Claim C6 — confirmed.  For N content descriptors the finished
document has exactly N+1 slides in presentation order: slide 0 carries
the requested presentation title, and slide i+1 carries descriptor i's
title (with the loop's default when the descriptor has none) — in the
template path and in the no-template fallback path alike. -/
theorem slide_order_both_paths (tmplPrs : Presentation) (title : String)
    (data : List Descriptor)
    (h0 : copiedOnly (tmplPrs.slides.getD 0 defaultSlide) = true)
    (h1 : copiedOnly (tmplPrs.slides.getD 1 defaultSlide) = true) :
    (createPresentationT tmplPrs title data).1.slides.length = data.length + 1 ∧
    (createPresentationF title data).slides.length = data.length + 1 ∧
    mainTitleText
      ((createPresentationT tmplPrs title data).1.slides.getD 0 defaultSlide) =
      some title ∧
    mainTitleText
      ((createPresentationF title data).slides.getD 0 defaultSlide) =
      some title ∧
    ∀ (i : Nat) (h : i < data.length),
      contentTitleText
        ((createPresentationT tmplPrs title data).1.slides.getD (i + 1)
          defaultSlide) =
        some ((data.get ⟨i, h⟩).title.getD (s!"Slide {i + 1}")) ∧
      contentTitleText
        ((createPresentationF title data).slides.getD (i + 1) defaultSlide) =
        some ((data.get ⟨i, h⟩).title.getD "Slide") := by
  refine ⟨?_, ?_, ?_, ?_, ?_⟩
  · simp [createPresentationT, contentSlidesT_length]
  · simp [createPresentationF, contentSlidesF_length]
  · exact mainTitleText_createTitleSlideVal 6 _ title h0
  · exact mainTitleText_fallbackTitleSlideVal 6 title
  · intro i h
    constructor
    · show contentTitleText
        ((contentSlidesT 6 (tmplPrs.slides.getD 1 defaultSlide) data 0).getD i
          defaultSlide) = _
      rw [contentSlidesT_getD 6 _ data 0 i h, Nat.zero_add]
      exact contentTitleText_contentSlideVal 6 _ _ _ _ h1
    · show contentTitleText
        ((contentSlidesF 6 data 0).getD i defaultSlide) = _
      rw [contentSlidesF_getD 6 data 0 i h, Nat.zero_add]
      exact contentTitleText_fallbackContentSlideVal 6 _ _ _

/-- Witness for `slide_order_both_paths` on the demo template and demo
descriptors A (present) and an untitled one: [title, A, Slide]. -/
theorem slide_order_both_paths_witness :
    copiedOnly (demoTemplatePrs.slides.getD 0 defaultSlide) = true ∧
    (createPresentationT demoTemplatePrs "Big" demoData).1.slides.length = 3 ∧
    (createPresentationF "Big" demoData).slides.length = 3 ∧
    mainTitleText
      ((createPresentationT demoTemplatePrs "Big" demoData).1.slides.getD 0
        defaultSlide) = some "Big" ∧
    contentTitleText
      ((createPresentationT demoTemplatePrs "Big" demoData).1.slides.getD 1
        defaultSlide) = some "A" ∧
    contentTitleText
      ((createPresentationF "Big" demoData).slides.getD 2 defaultSlide) =
      some "Slide" :=
  ⟨by decide,
   (slide_order_both_paths demoTemplatePrs "Big" demoData (by decide)
      (by decide)).1,
   (slide_order_both_paths demoTemplatePrs "Big" demoData (by decide)
      (by decide)).2.1,
   (slide_order_both_paths demoTemplatePrs "Big" demoData (by decide)
      (by decide)).2.2.1,
   ((slide_order_both_paths demoTemplatePrs "Big" demoData (by decide)
      (by decide)).2.2.2.2 0 (by decide)).1,
   ((slide_order_both_paths demoTemplatePrs "Big" demoData (by decide)
      (by decide)).2.2.2.2 1 (by decide)).2⟩

/-- The template-path bullet loop renders exactly its input points, in
order: one non-bold text box per point. -/
theorem filterMap_bulletTextF_bulletShapesT (accent : RGB) :
    ∀ (l : List String) (i : Nat),
      (bulletShapesT accent l i).filterMap bulletTextF = l := by
  intro l
  induction l with
  | nil => intro i; rfl
  | cons p ps ih => intro i; simp [bulletShapesT, bulletTextF, ih (i + 1)]

/-- The fallback bullet loop renders exactly its input points, in
order. -/
theorem filterMap_bulletTextF_bulletShapesF (accent : RGB) :
    ∀ (l : List String) (i : Nat),
      (bulletShapesF accent l i).filterMap bulletTextF = l := by
  intro l
  induction l with
  | nil => intro i; rfl
  | cons p ps ih => intro i; simp [bulletShapesF, bulletTextF, ih (i + 1)]

/-- Claim C7 — corrected.  Excess bullets are silently dropped in both
paths, but the caps differ: a template-path content slide renders
exactly `content[:5]` (the first ≤5 bullets in input order), while a
fallback content slide renders exactly `content[:6]` — the fallback cap
is 6, not 5. -/
theorem bullet_cap_template5_fallback6 (b : Nat) (tm : Slide)
    (t : String) (c : List String) (n : Nat) (h : copiedOnly tm = true) :
    bulletTexts (contentSlideVal b tm t c n) = c.take 5 ∧
    bulletTexts (fallbackContentSlideVal b t c n) = c.take 6 := by
  have h0 : tm.spTree.filterMap bulletTextF = [] :=
    filterMap_copiedOnly _ (fun x => rfl) tm h
  constructor
  · simp [bulletTexts, contentSlideVal, addRect, addTextBox, cloneSlideVal,
      newSlideOnLayout, List.filterMap_append, h0,
      filterMap_bulletTextF_bulletShapesT, bulletTextF]
  · simp [bulletTexts, fallbackContentSlideVal, addRect, addTextBox,
      newSlideOnLayout, List.filterMap_append,
      filterMap_bulletTextF_bulletShapesF, bulletTextF]

/-- Witness for `bullet_cap_template5_fallback6`: 8 bullets render as
the first 5 on the template path and the first 6 on the fallback
path. -/
theorem bullet_cap_template5_fallback6_witness :
    copiedOnly demoContentTmpl = true ∧
    bulletTexts (contentSlideVal 6 demoContentTmpl "T"
      ["b1", "b2", "b3", "b4", "b5", "b6", "b7", "b8"] 1) =
      ["b1", "b2", "b3", "b4", "b5"] ∧
    bulletTexts (fallbackContentSlideVal 6 "T"
      ["b1", "b2", "b3", "b4", "b5", "b6", "b7", "b8"] 1) =
      ["b1", "b2", "b3", "b4", "b5", "b6"] :=
  ⟨by decide,
   (bullet_cap_template5_fallback6 6 demoContentTmpl "T"
      ["b1", "b2", "b3", "b4", "b5", "b6", "b7", "b8"] 1 (by decide)).1,
   (bullet_cap_template5_fallback6 6 demoContentTmpl "T"
      ["b1", "b2", "b3", "b4", "b5", "b6", "b7", "b8"] 1 (by decide)).2⟩

/-- Counterexample to claim C7 as stated: on the fallback path a
descriptor with 8 bullets yields 6 rendered bullet bodies, not 5
(`_fallback_content_slide` iterates `content[:6]`). -/
theorem fallback_bullet_cap_counterexample :
    (bulletTexts (fallbackContentSlideVal 6 "T"
      ["b1", "b2", "b3", "b4", "b5", "b6", "b7", "b8"] 1)).length = 6 ∧
    ¬ (bulletTexts (fallbackContentSlideVal 6 "T"
      ["b1", "b2", "b3", "b4", "b5", "b6", "b7", "b8"] 1)).length = 5 := by
  refine ⟨by decide, by decide⟩

/-- The top accent bar of a template-path content slide is orange for
even slide numbers and the secondary orange for odd ones (line 129). -/
theorem topBarColor_contentSlideVal (b : Nat) (tm : Slide) (t : String)
    (c : List String) (n : Nat) (h : copiedOnly tm = true) :
    topBarColor (contentSlideVal b tm t c n) =
      some (if n % 2 == 0 then COLOR_ORANGE else COLOR_ORANGE2) := by
  have h0 : tm.spTree.filterMap rectColorF = [] :=
    filterMap_copiedOnly _ (fun x => rfl) tm h
  simp [topBarColor, contentSlideVal, addRect, addTextBox, cloneSlideVal,
    newSlideOnLayout, List.filterMap_append, h0, rectColorF]

/-- The top accent bar of a fallback content slide is blue for even
slide numbers and purple for odd ones (line 279). -/
theorem topBarColor_fallbackContentSlideVal (b : Nat) (t : String)
    (c : List String) (n : Nat) :
    topBarColor (fallbackContentSlideVal b t c n) =
      some (if n % 2 == 0 then COLOR_BLUE else COLOR_PURP) := by
  simp [topBarColor, fallbackContentSlideVal, addRect, addTextBox,
    newSlideOnLayout, List.filterMap_append, rectColorF]

/-- Claim C8 — confirmed.  The accent colour of a content slide is a
function of the parity of its 1-based slot number alone, alternating
between exactly two colours, in the template path and the fallback path
alike: two content slides (whatever their titles, bullet lists or
template base) get the same accent exactly when their slot numbers have
equal parity — in particular slots s and s+2 always match while s and
s+1 always differ. -/
theorem accent_depends_only_on_parity (b1 b2 : Nat) (tm1 tm2 : Slide)
    (t1 t2 : String) (c1 c2 : List String) (m n : Nat)
    (h1 : copiedOnly tm1 = true) (h2 : copiedOnly tm2 = true) :
    (m % 2 = n % 2 →
      topBarColor (contentSlideVal b1 tm1 t1 c1 m) =
        topBarColor (contentSlideVal b2 tm2 t2 c2 n) ∧
      topBarColor (fallbackContentSlideVal b1 t1 c1 m) =
        topBarColor (fallbackContentSlideVal b2 t2 c2 n)) ∧
    (m % 2 ≠ n % 2 →
      topBarColor (contentSlideVal b1 tm1 t1 c1 m) ≠
        topBarColor (contentSlideVal b2 tm2 t2 c2 n) ∧
      topBarColor (fallbackContentSlideVal b1 t1 c1 m) ≠
        topBarColor (fallbackContentSlideVal b2 t2 c2 n)) := by
  rw [topBarColor_contentSlideVal b1 tm1 t1 c1 m h1,
    topBarColor_contentSlideVal b2 tm2 t2 c2 n h2,
    topBarColor_fallbackContentSlideVal b1 t1 c1 m,
    topBarColor_fallbackContentSlideVal b2 t2 c2 n]
  rcases Nat.mod_two_eq_zero_or_one m with hm | hm <;>
    rcases Nat.mod_two_eq_zero_or_one n with hn | hn <;>
      simp [hm, hn, COLOR_ORANGE, COLOR_ORANGE2, COLOR_BLUE, COLOR_PURP]

/-- Witness for `accent_depends_only_on_parity`: slots 1 and 3 share an
accent, slots 1 and 2 do not. -/
theorem accent_depends_only_on_parity_witness :
    (topBarColor (contentSlideVal 6 demoContentTmpl "A" [] 1) =
      topBarColor (contentSlideVal 6 demoContentTmpl "B" ["x"] 3)) ∧
    (topBarColor (contentSlideVal 6 demoContentTmpl "A" [] 1) ≠
      topBarColor (contentSlideVal 6 demoContentTmpl "B" ["x"] 2)) :=
  ⟨((accent_depends_only_on_parity 6 6 demoContentTmpl demoContentTmpl
      "A" "B" [] ["x"] 1 3 (by decide) (by decide)).1 (by decide)).1,
   ((accent_depends_only_on_parity 6 6 demoContentTmpl demoContentTmpl
      "A" "B" [] ["x"] 1 2 (by decide) (by decide)).2 (by decide)).1⟩

/-- Claim C9 — corrected.  The filename derivation is a pure function
of the title, but characters outside alphanumerics/space/hyphen/
underscore are REPLACED by underscores, not dropped: the sanitised stem
maps each character c to c when it is kept and not a space, and to an
underscore otherwise (spaces and disallowed characters alike become
underscores).  In particular a title containing only kept characters
maps to itself with spaces replaced by underscores, as the claim
says. -/
theorem filename_replaces_disallowed (t : String) :
    outputFilename t =
      String.mk (t.data.map fun c =>
        if keptChar c && !(c == ' ') then c else '_') ++ ".pptx" ∧
    ((∀ c ∈ t.data, keptChar c = true) →
      outputFilename t = replaceSpaces t ++ ".pptx") := by
  constructor
  · show String.mk ((t.data.map safeChar).map fun c =>
        if c = ' ' then '_' else c) ++ ".pptx" = _
    rw [List.map_map]
    have hmap : ∀ c ∈ t.data,
        ((fun c => if c = ' ' then '_' else c) ∘ safeChar) c =
          (fun c => if keptChar c && !(c == ' ') then c else '_') c := by
      intro c _
      cases hk : keptChar c with
      | false => simp [Function.comp, safeChar, hk]
      | true =>
          cases hs : c == ' ' with
          | false =>
              have hc : ¬ c = ' ' := by
                intro hcc
                rw [hcc] at hs
                simp at hs
              simp [Function.comp, safeChar, hk, hs, hc]
          | true =>
              have hc : c = ' ' := by
                have := hs
                simpa [beq_iff_eq] using this
              simp [Function.comp, safeChar, hk, hs, hc]
    rw [List.map_congr_left hmap]
  · intro h
    show replaceSpaces (safeTitle t) ++ ".pptx" = replaceSpaces t ++ ".pptx"
    have hid : safeTitle t = t := by
      show String.mk (t.data.map safeChar) = t
      have h2 : t.data.map safeChar = t.data.map id :=
        List.map_congr_left (fun c hc => by simp [safeChar, h c hc])
      rw [h2, List.map_id]
    rw [hid]

/-- Witness for `filename_replaces_disallowed`: a title of only kept
characters round-trips with spaces underscored. -/
theorem filename_replaces_disallowed_witness :
    (∀ c ∈ ("My Deck-1" : String).data, keptChar c = true) ∧
    outputFilename "My Deck-1" = replaceSpaces "My Deck-1" ++ ".pptx" :=
  ⟨by decide, (filename_replaces_disallowed "My Deck-1").2 (by decide)⟩

/-- Counterexample to claim C9 as stated: on `"a!b"` the code produces
`"a_b.pptx"` (the `!` becomes an underscore), whereas keeping only the
allowed characters would drop the `!` and give `"ab.pptx"`. -/
theorem filename_keep_counterexample :
    outputFilename "a!b" = "a_b.pptx" ∧
    specKeepFilename "a!b" = "ab.pptx" ∧
    ¬ outputFilename "a!b" = specKeepFilename "a!b" := by
  refine ⟨by decide, by decide, by decide⟩

/-- Unpacking a string into two targets fails whenever its length is
not 2. -/
theorem unpackPair_eq_none_of_length (s : String) (h : ¬ s.length = 2) :
    unpackPair s = none := by
  cases hd : s.data with
  | nil => simp [unpackPair, hd]
  | cons a l =>
      cases l with
      | nil => simp [unpackPair, hd]
      | cons b l2 =>
          cases l2 with
          | nil =>
              exfalso
              apply h
              show s.data.length = 2
              rw [hd]
              rfl
          | cons cc l3 => simp [unpackPair, hd]

/-- Claim C3 — the code violates it.  `create_presentation` does not
return an (in-memory buffer, filename) pair: it saves the document to
disk under `generated_ppts/` and returns the file path as one string.
`main.py` line 54 unpacks that return value as `buf, filename = ...`,
which succeeds for a string only when it has exactly two characters;
the returned path always contains `/generated_ppts/` and ends in
`.pptx`, so the unpacking fails (`ValueError`, surfacing as HTTP 500)
for every directory and every title. -/
theorem create_presentation_return_unpack_fails (dir title : String) :
    unpackPair (createPresentationReturn dir title) = none := by
  apply unpackPair_eq_none_of_length
  intro h2
  have h1 : (createPresentationReturn dir title).length =
      dir.length + 16 + (outputFilename title).length := by
    show (dir ++ "/generated_ppts/" ++ outputFilename title).length = _
    rw [String.length_append, String.length_append,
      show ("/generated_ppts/" : String).length = 16 from rfl]
  have h3 : (outputFilename title).length =
      (replaceSpaces (safeTitle title)).length + 5 := by
    show (replaceSpaces (safeTitle title) ++ ".pptx").length = _
    rw [String.length_append, show (".pptx" : String).length = 5 from rfl]
  omega

/-- Popping a token absent from the store is a 404 that leaves the
store untouched. -/
theorem popToken_eq_of_lookup_none (l : Store) (token : String)
    (h : storeLookup l token = none) : popToken l token = (none, l) := by
  simp [popToken, h]

/-- Popping every binding of a key makes later lookups of it fail. -/
theorem lookup_filter_ne (token : String) :
    ∀ l : Store,
      storeLookup (l.filter fun p => p.1 ≠ token) token = none := by
  intro l
  induction l with
  | nil => rfl
  | cons kv l ih =>
      by_cases hk : kv.1 = token
      · rw [show (kv :: l).filter (fun p => p.1 ≠ token) =
            l.filter (fun p => p.1 ≠ token) from by
          simp [List.filter_cons, hk]]
        exact ih
      · rw [show (kv :: l).filter (fun p => p.1 ≠ token) =
            kv :: l.filter (fun p => p.1 ≠ token) from by
          simp [List.filter_cons, hk]]
        rw [show storeLookup (kv :: l.filter fun p => p.1 ≠ token) token =
            storeLookup (l.filter fun p => p.1 ≠ token) token from by
          simp [storeLookup, List.find?_cons, hk]]
        exact ih

/-- Claim C10 — confirmed.  After a generation stores an entry under a
token, the first `/download/{token}` returns that entry and removes the
binding: a second request with the same token answers 404 and leaves
the store exactly as it was, and a request with any unknown token
answers 404 without changing the store at all. -/
theorem download_token_one_time (store : Store) (token : String)
    (entry : StoreEntry) (u : String) :
    (downloadPpt (storeInsert store token entry) token).1 = some entry ∧
    storeLookup (downloadPpt (storeInsert store token entry) token).2 token =
      none ∧
    downloadPpt (downloadPpt (storeInsert store token entry) token).2 token =
      (none, (downloadPpt (storeInsert store token entry) token).2) ∧
    (storeLookup store u = none → downloadPpt store u = (none, store)) := by
  have hlook : storeLookup (storeInsert store token entry) token = some entry := by
    simp [storeLookup, storeInsert, List.find?_cons]
  have hfst : downloadPpt (storeInsert store token entry) token =
      (some entry, (storeInsert store token entry).filter fun p => p.1 ≠ token) := by
    simp [downloadPpt, popToken, hlook]
  have hafter : storeLookup
      ((storeInsert store token entry).filter fun p => p.1 ≠ token) token =
      none := lookup_filter_ne token _
  refine ⟨by rw [hfst], ?_, ?_, ?_⟩
  · rw [hfst]
    exact hafter
  · rw [hfst]
    exact popToken_eq_of_lookup_none _ token hafter
  · intro h
    exact popToken_eq_of_lookup_none store u h

/-- A one-entry demo store. -/
def demoStore : Store := [("other", ⟨7, "o.pptx"⟩)]

/-- A demo store entry. -/
def demoEntry : StoreEntry := ⟨3, "Demo.pptx"⟩

/-- Witness for `download_token_one_time` on a concrete store, token
and entry, with a concrete unknown token. -/
theorem download_token_one_time_witness :
    (downloadPpt (storeInsert demoStore "tok" demoEntry) "tok").1 =
      some demoEntry ∧
    storeLookup demoStore "missing" = none ∧
    downloadPpt demoStore "missing" = (none, demoStore) :=
  ⟨(download_token_one_time demoStore "tok" demoEntry "missing").1,
   by decide,
   (download_token_one_time demoStore "tok" demoEntry "missing").2.2.2
     (by decide)⟩

end PPTGen
